import Mathlib

/-!
Verification of the Session Manager and Event Bridge of `wa-connections-crm`
(`src/connections.js`, primary variant).  The JavaScript module keeps a
module-level `Map` of live sessions (`clients`), drives per-session state by
engine callbacks, and exposes `createSession`, `deleteSession`, `sendText`,
`sendMedia`, `revokeMessage` and `restoreAllSessions`.  We embed it shallowly:
the mutable module state becomes an explicit `RegState` threaded through every
operation, the external automation engine (whatsapp-web.js client) becomes
oracle parameters (the event trace delivered while `client.initialize()` is
awaited, and the outcome of each `sendMessage` / `getMessageById` /
`msg.delete` call), and JavaScript exceptions become `Except` results paired
with the post-state.
-/

deriving instance DecidableEq for Except

namespace WaCrm

/-- Session status strings stored in `session.status`
    (`initializing | qr | authenticating | ready | auth_failure |
    disconnected`); `offline` is the value `statusOf` reports for an
    unregistered id. -/
inductive Status where
  | initializing
  | qr
  | authenticating
  | ready
  | auth_failure
  | disconnected
  | offline
  deriving DecidableEq

/-- The self identity fetched by `client.getMe()`; opaque to the manager, we
    keep just an identifying string (the wid). -/
abbrev Me := String

/-- One in-memory session record: `{ client, status, info, me }`.  The engine
    client object is represented by the unique `handle` number it was allocated
    with. -/
structure Session where
  handle : Nat
  status : Status
  info : Option Nat
  me : Option Me
  deriving DecidableEq

/-- One directory entry under `SESSIONS_DIR`, as seen by
    `fs.readdirSync(..., { withFileTypes: true })`. -/
structure DirEntry where
  name : String
  isDir : Bool
  deriving DecidableEq

/-- The module-level mutable state of `src/connections.js`: the `clients` map
    (insertion-ordered association list, as a JS `Map`), the counter providing
    fresh engine client handles, the directory entries on disk under
    `SESSIONS_DIR`, and the log of webhooks fired (event name, session id). -/
structure RegState where
  clients : List (String × Session)
  nextHandle : Nat
  disk : List DirEntry
  webhooks : List (String × String)
  deriving DecidableEq

/-- JS `clients.get(id)` on the association list. -/
def getEntry (id : String) : List (String × Session) → Option Session
  | [] => none
  | (k, s) :: rest => if k = id then some s else getEntry id rest

/-- JS `clients.set(id, s)`: replace the binding if present, append otherwise
    (JS `Map.set` semantics). -/
def setEntry (id : String) (s : Session) : List (String × Session) → List (String × Session)
  | [] => [(id, s)]
  | (k, v) :: rest => if k = id then (k, s) :: rest else (k, v) :: setEntry id s rest

/-- JS `clients.delete(id)`: drop the binding for `id` if present. -/
def eraseEntry (id : String) : List (String × Session) → List (String × Session)
  | [] => []
  | (k, v) :: rest => if k = id then rest else (k, v) :: eraseEntry id rest

/-- Number of bindings for `id` (a well-formed `Map` has at most one). -/
def countKey (id : String) : List (String × Session) → Nat
  | [] => 0
  | (k, _) :: rest => (if k = id then 1 else 0) + countKey id rest

/-- ASCII lower-casing of one character (what `String.prototype.toLowerCase`
    and the `/i` regex flag do on the ASCII patterns this module matches). -/
def lowerChar (c : Char) : Char :=
  if 65 ≤ c.toNat ∧ c.toNat ≤ 90 then Char.ofNat (c.toNat + 32) else c

/-- Whitespace as removed by `String.prototype.trim` (the usual ASCII cases). -/
def isSpaceChar (c : Char) : Bool := c = ' ' || c = '\t' || c = '\n' || c = '\r'

/-- JS `trim()` on the character list of a string. -/
def trimChars (l : List Char) : List Char :=
  ((l.dropWhile isSpaceChar).reverse.dropWhile isSpaceChar).reverse

/-- Does the list start with the given pattern? -/
def startsWithL : List Char → List Char → Bool
  | _, [] => true
  | [], _ :: _ => false
  | c :: cs, p :: ps => c = p && startsWithL cs ps

/-- Does the list end with the given pattern (regex `pat$`)? -/
def hasSuffixL (l suf : List Char) : Bool := startsWithL l.reverse suf.reverse

/-- Does the pattern occur anywhere in the list? -/
def containsL : List Char → List Char → Bool
  | [], pat => startsWithL [] pat
  | c :: rest, pat => startsWithL (c :: rest) pat || containsL rest pat

/-- JS `toChatId(raw)` from `src/connections.js`: `null` on a falsy input, keep a
    trimmed id already ending in `@c.us`/`@g.us` (case-insensitive), otherwise
    strip every non-digit and append `@c.us`, failing when no digits remain. -/
def toChatId (raw : String) : Option String :=
  if raw = "" then none
  else
    let s := trimChars raw.data
    let low := s.map lowerChar
    if hasSuffixL low "@c.us".data || hasSuffixL low "@g.us".data then
      some (String.mk s)
    else
      let digits := s.filter Char.isDigit
      if digits = [] then none else some (String.mk digits ++ "@c.us")

/-- JS `inferMediaType(m)`: derived media class from the MIME type. -/
def inferMediaType (m : String) : Option String :=
  if m = "" then none
  else if startsWithL m.data "image/".data then some "image"
  else if startsWithL m.data "video/".data then some "video"
  else if startsWithL m.data "audio/".data then some "audio"
  else if m = "application/pdf" then some "document"
  else some "document"

/-- JS `isOggOpus(mime)`: the regex `/^audio\/ogg(?:;.*)?$/i` accepts exactly
    `audio/ogg` or `audio/ogg;<anything>`, case-insensitively. -/
def isOggOpus (m : String) : Bool :=
  let low := m.data.map lowerChar
  low = "audio/ogg".data || startsWithL low "audio/ogg;".data

/-- Case-insensitive substring test: `/pat/i.test(s)` for a plain-text pattern
    `pat` given in lower case. -/
def containsCI (s : String) (pat : List Char) : Bool :=
  containsL (s.data.map lowerChar) pat

/-- The error recognition of the `sendMedia` fallback:
    `/Evaluation failed/i.test(e.message) || /not a function/i.test(e.message)`. -/
def shouldFallback (emsg : String) : Bool :=
  containsCI emsg "evaluation failed".data || containsCI emsg "not a function".data

/-- JS `Math.floor(media.data.length * 0.75)`: the decoded size estimated from the
    base64 length. -/
def approxBytes (b64len : Nat) : Nat := b64len * 3 / 4

/-- The errors thrown by the public operations, named by the exact
    `Error` message strings of the source; `engineErr` carries the message of
    an error bubbled up from the automation engine. -/
inductive Err where
  | missing_session_id
  | session_not_found
  | session_not_ready
  | invalid_recipient
  | invalid_chat_id
  | invalid_message_id
  | invalid_media
  | message_not_found
  | revoke_not_supported_by_client
  | engineErr (msg : String)
  deriving DecidableEq

/-- The message object resolved by `client.sendMessage`: we keep the serialized
    id and the (whatsapp-seconds) timestamp used by the webhook payloads. -/
structure SentMsg where
  serializedId : Option String
  timestamp : Option Nat
  deriving DecidableEq

/-- The options object passed to `client.sendMessage` for media:
    `{ caption, sendAudioAsVoice }`, plus `sendMediaAsDocument` which the
    fallback adds (absent = `false`). -/
structure SendOpts where
  caption : String
  sendAudioAsVoice : Bool
  sendMediaAsDocument : Bool
  deriving DecidableEq

/-- Caller options of `sendMedia`: `{ asVoice, caption }`. -/
structure MediaOpts where
  asVoice : Bool
  caption : String
  deriving DecidableEq

/-- The success value of `revokeMessage`. -/
structure RevokeResult where
  ok : Bool
  engine : String
  deriving DecidableEq

/-- The asynchronous callbacks the automation engine can deliver to the
    handlers registered by `createSession`: `qr` (with the success of the
    `toDataURL` rendering, whose failure is caught before any state change),
    `authenticated` (with the opaque info), `ready` (with the result of the
    best-effort `client.getMe()`, `none` when it threw), `auth_failure` and
    `disconnected`.  Inbound `message` callbacks never touch the session
    record; their media payload is modelled separately by
    `buildInboundMedia`. -/
inductive EngineEvent where
  | qrEv (renderOk : Bool)
  | authenticated (info : Option Nat)
  | readyEv (me : Option Me)
  | auth_failure
  | disconnectedEv
  deriving DecidableEq

/-- How one engine callback mutates the session object, exactly as the
    handlers in `createSession` do (a failed `toDataURL` render is caught
    before the handler sets status `qr`; the `ready` handler stores the best-effort
    `getMe()` result, `null` on failure; no handler ever clears `me`). -/
def Session.onEvent (s : Session) : EngineEvent → Session
  | .qrEv ok => if ok then { s with status := .qr } else s
  | .authenticated i => { s with status := .authenticating, info := i }
  | .readyEv m => { s with status := .ready, me := m }
  | .auth_failure => { s with status := .auth_failure }
  | .disconnectedEv => { s with status := .disconnected }

/-- The webhooks each handler fires (the `qr` one only after a successful
    render). -/
def eventHooks (id : String) : EngineEvent → List (String × String)
  | .qrEv ok => if ok then [("qr", id)] else []
  | .authenticated _ => [("authenticated", id)]
  | .readyEv _ => [("ready", id)]
  | .auth_failure => [("auth_failure", id)]
  | .disconnectedEv => [("disconnected", id)]

/-- Only the `disconnected` handler removes the registry entry (after a
    best-effort `client.destroy()` whose failure is swallowed). -/
def deregisters : EngineEvent → Bool
  | .disconnectedEv => true
  | _ => false

/-- One engine callback applied to the session object of the closure together with
    the module state: the handlers mutate the shared object (also visible
    through the `clients` entry while it is registered) and the `disconnected`
    handler removes the entry. -/
def stepObj (id : String) (p : Session × RegState) (ev : EngineEvent) :
    Session × RegState :=
  let s' := p.1.onEvent ev
  let st := p.2
  let clients1 :=
    match getEntry id st.clients with
    | some _ => setEntry id s' st.clients
    | none => st.clients
  let clients2 := if deregisters ev then eraseEntry id clients1 else clients1
  (s', { st with clients := clients2, webhooks := st.webhooks ++ eventHooks id ev })

/-- An engine callback delivered to the registered session for `id` after
    `createSession` returned (no-op when the id is no longer registered). -/
def applyEventReg (id : String) (ev : EngineEvent) (st : RegState) : RegState :=
  match getEntry id st.clients with
  | none => st
  | some s => (stepObj id (s, st) ev).2

/-- The record client, status `initializing`, info null, me null, with a freshly
    constructed engine client. -/
def freshSession (h : Nat) : Session :=
  { handle := h, status := .initializing, info := none, me := none }

/-- JS `createSession(id)`.  Rejects an empty id; returns an already registered
    session unchanged; otherwise constructs an engine client (one fresh
    handle), registers the session in state `initializing`, registers the
    callback handlers, and `await client.initialize()` — modelled by `trace`,
    the callbacks the engine delivers before `initialize` settles, and
    `initRes`, its outcome — then returns the session object (as the handlers
    left it). -/
def createSession (id : String) (trace : List EngineEvent) (initRes : Except String Unit)
    (st : RegState) : Except Err Session × RegState :=
  if id = "" then (.error .missing_session_id, st)
  else
    match getEntry id st.clients with
    | some s => (.ok s, st)
    | none =>
      let s0 := freshSession st.nextHandle
      let st0 := { st with clients := setEntry id s0 st.clients,
                           nextHandle := st.nextHandle + 1 }
      let p := trace.foldl (stepObj id) (s0, st0)
      match initRes with
      | .ok _ => (.ok p.1, p.2)
      | .error m => (.error (.engineErr m), p.2)

/-- JS `deleteSession(id)`: best-effort `client.destroy()` (its outcome
    `destroyOk` is swallowed), removal of the map entry, removal of the
    `session-<id>` credential directory, unconditional `session_deleted`
    webhook, `return true`. -/
def deleteSession (id : String) (destroyOk : Bool) (st : RegState) : Bool × RegState :=
  let st1 :=
    match getEntry id st.clients with
    | some _ => { st with clients := eraseEntry id st.clients }
    | none => st
  let st2 := { st1 with disk := st1.disk.filter (fun e => e.name ≠ "session-" ++ id) }
  (true, { st2 with webhooks := st2.webhooks ++ [("session_deleted", id)] })

/-- JS `sendText(id, to, text)`; `eng` is the outcome of the engine
    `client.sendMessage(chatId, text)` round trip. -/
def sendText (id toRaw text : String) (eng : Except String SentMsg) (st : RegState) :
    Except Err SentMsg × RegState :=
  match getEntry id st.clients with
  | none => (.error .session_not_found, st)
  | some s =>
    if s.status ≠ .ready then (.error .session_not_ready, st)
    else
      match toChatId toRaw with
      | none => (.error .invalid_recipient, st)
      | some _ =>
        match eng with
        | .error m => (.error (.engineErr m), st)
        | .ok msg => (.ok msg, { st with webhooks := st.webhooks ++ [("message_sent", id)] })

/-- JS `sendMedia(sessionId, to, buffer, mimeType, fileName, opts)` with the
    document fallback; `eng` maps the options object of each
    `client.sendMessage` attempt to its outcome.  Besides the result and the
    post-state we return the list of options objects passed to the engine, in
    call order, so the attempt discipline is observable. -/
def sendMedia (sessionId toRaw : String) (buffer : Option (List Nat)) (mimeType : String)
    (fileName : String) (opts : MediaOpts) (eng : SendOpts → Except String SentMsg)
    (st : RegState) : (Except Err SentMsg × List SendOpts) × RegState :=
  match getEntry sessionId st.clients with
  | none => ((.error .session_not_found, []), st)
  | some s =>
    if s.status ≠ .ready then ((.error .session_not_ready, []), st)
    else
      match toChatId toRaw with
      | none => ((.error .invalid_recipient, []), st)
      | some _ =>
        if buffer = none || mimeType = "" then ((.error .invalid_media, []), st)
        else
          let wantVoice := opts.asVoice && isOggOpus mimeType
          let baseOptions : SendOpts :=
            { caption := opts.caption, sendAudioAsVoice := wantVoice,
              sendMediaAsDocument := false }
          match eng baseOptions with
          | .ok msg =>
              ((.ok msg, [baseOptions]),
               { st with webhooks := st.webhooks ++ [("message_sent", sessionId)] })
          | .error e =>
            if shouldFallback e then
              let fallbackOptions : SendOpts :=
                { baseOptions with sendAudioAsVoice := false, sendMediaAsDocument := true }
              match eng fallbackOptions with
              | .ok msg =>
                  ((.ok msg, [baseOptions, fallbackOptions]),
                   { st with webhooks := st.webhooks ++ [("message_sent", sessionId)] })
              | .error e2 =>
                  ((.error (.engineErr e2), [baseOptions, fallbackOptions]), st)
            else ((.error (.engineErr e), [baseOptions]), st)

/-- JS `revokeMessage(sessionId, chatId, messageId)`; `hasGet` is whether the
    engine exposes `getMessageById`, `fetched` its outcome (`ok none` = the
    message does not exist), `delRes` the outcome of `msg.delete(true)`. -/
def revokeMessage (sessionId chatId messageId : String) (hasGet : Bool)
    (fetched : Except String (Option Unit)) (delRes : Except String Unit)
    (st : RegState) : Except Err RevokeResult × RegState :=
  match getEntry sessionId st.clients with
  | none => (.error .session_not_found, st)
  | some s =>
    if s.status ≠ .ready then (.error .session_not_ready, st)
    else
      match toChatId chatId with
      | none => (.error .invalid_chat_id, st)
      | some _ =>
        if messageId = "" then (.error .invalid_message_id, st)
        else if hasGet then
          match fetched with
          | .error m => (.error (.engineErr m), st)
          | .ok none => (.error .message_not_found, st)
          | .ok (some _) =>
            match delRes with
            | .error m => (.error (.engineErr m), st)
            | .ok _ =>
                (.ok { ok := true, engine := "whatsapp-web.js" },
                 { st with webhooks := st.webhooks ++ [("message_revoked", sessionId)] })
        else (.error .revoke_not_supported_by_client, st)

/-- The loop body of `restoreAllSessions`: for every directory entry whose
    name starts with `session-`, extract the id (strip the 8-character
    `session-` marker), `await createSession(id)` (the `oracle` provides the
    engine behaviour for each id), collect the id on success, log and continue
    on failure. -/
def restoreLoop (oracle : String → List EngineEvent × Except String Unit) :
    List DirEntry → RegState → List String × RegState
  | [], st => ([], st)
  | e :: rest, st =>
    if e.isDir && startsWithL e.name.data "session-".data then
      let id := String.mk (e.name.data.drop 8)
      let o := oracle id
      let r := createSession id o.1 o.2 st
      let res := restoreLoop oracle rest r.2
      match r.1 with
      | .ok _ => (id :: res.1, res.2)
      | .error _ => res
    else restoreLoop oracle rest st

/-- JS `restoreAllSessions()`: enumerate `SESSIONS_DIR` once and run the loop. -/
def restoreAllSessions (oracle : String → List EngineEvent × Except String Unit)
    (st : RegState) : List String × RegState :=
  restoreLoop oracle st.disk st

/-- The `data.media` object the inbound `message` handler attaches to the
    webhook payload once media was downloaded and persisted: with estimated
    decoded size at or below the threshold the base64 data rides along,
    otherwise `data: null, skipped: true` (in the inline branch no `skipped`
    key exists, i.e. it reads as `false`). -/
structure MediaPayload where
  mimetype : String
  filename : String
  data : Option String
  size : Nat
  media_type : Option String
  skipped : Bool
  deriving DecidableEq

/-- Build the inbound media payload from `media.data` (base64), its MIME type,
    the original filename (`""` when absent, as a JS falsy fallback to the
    saved name) and the configured `WEBHOOK_MEDIA_MAX`. -/
def buildInboundMedia (b64 : String) (mimetype : String) (origFilename : String)
    (savedName : String) (maxBytes : Nat) : MediaPayload :=
  let n := approxBytes b64.length
  let fname := if origFilename = "" then savedName else origFilename
  if n ≤ maxBytes then
    { mimetype := mimetype, filename := fname, data := some b64, size := n,
      media_type := inferMediaType mimetype, skipped := false }
  else
    { mimetype := mimetype, filename := fname, data := none, size := n,
      media_type := inferMediaType mimetype, skipped := true }

/-- Modelled from the spec: the error taxonomy of section 7 of the design
    document ("InvalidArgument (missing/malformed id, recipient, or message
    id)", "SessionNotFound", "SessionNotReady (state is not ready)",
    "InvalidRecipient (normalization failure)", "InvalidMedia", and so on). -/
inductive ErrClass where
  | invalidArgument
  | sessionNotFound
  | sessionNotReady
  | invalidRecipient
  | invalidMedia
  | messageNotFound
  | revokeUnsupported
  | engineFailure
  deriving DecidableEq

/-- Modelled from the spec: the classification of each concrete error token
    the code throws into the section-7 taxonomy.  `invalid_recipient` and
    `invalid_chat_id` are both the chat-id normalization failure, hence
    `InvalidRecipient`; the missing-id and missing-message-id validations are
    `InvalidArgument`. -/
def errClass : Err → ErrClass
  | .missing_session_id => .invalidArgument
  | .session_not_found => .sessionNotFound
  | .session_not_ready => .sessionNotReady
  | .invalid_recipient => .invalidRecipient
  | .invalid_chat_id => .invalidRecipient
  | .invalid_message_id => .invalidArgument
  | .invalid_media => .invalidMedia
  | .message_not_found => .messageNotFound
  | .revoke_not_supported_by_client => .revokeUnsupported
  | .engineErr _ => .engineFailure

/-- The registry-mutating operations, for the reachability relation.
    (`sendText`/`sendMedia`/`revokeMessage` never touch `clients`, only the
    webhook log, so they are irrelevant to session-record invariants.) -/
inductive Step where
  | createS (id : String) (trace : List EngineEvent) (initRes : Except String Unit)
  | engineCb (id : String) (ev : EngineEvent)
  | deleteS (id : String) (destroyOk : Bool)

/-- Effect of one registry-mutating operation. -/
def applyStep (st : RegState) : Step → RegState
  | .createS id tr r => (createSession id tr r st).2
  | .engineCb id ev => applyEventReg id ev st
  | .deleteS id ok => (deleteSession id ok st).2

/-- State at process start: empty registry, arbitrary credential directories
    on disk. -/
def bootState (disk : List DirEntry) : RegState :=
  { clients := [], nextHandle := 0, disk := disk, webhooks := [] }

/-- Registry states reachable from boot through the public operations and
    engine callbacks. -/
inductive Reachable : RegState → Prop where
  | boot (disk : List DirEntry) : Reachable (bootState disk)
  | step {st : RegState} (s : Step) : Reachable st → Reachable (applyStep st s)

/-- Well-formedness of the `clients` map: no key bound twice (true of a JS
    `Map`, and an invariant of every reachable state, see `reachable_WFm`). -/
def nodupKeys : List (String × Session) → Bool
  | [] => true
  | (k, _) :: rest => decide (countKey k rest = 0) && nodupKeys rest

/-- Well-formedness of the registry state. -/
def WFm (st : RegState) : Prop := nodupKeys st.clients = true

instance decWFm (st : RegState) : Decidable (WFm st) :=
  inferInstanceAs (Decidable (nodupKeys st.clients = true))

/-- The selfIdentity invariant of the spec: every registered session with a
    non-null `me` has status `ready`. -/
def SelfIdInv (st : RegState) : Prop :=
  ∀ id s, getEntry id st.clients = some s → s.me ≠ none → s.status = Status.ready


/-- The engine-callback discipline under which the selfIdentity invariant is
    preserved: `qr` (successfully rendered), `authenticated` and
    `auth_failure` callbacks are only delivered to a session whose `me` is
    still null — i.e. no such callback arrives after a successful `ready`
    (whose handler is the only one that sets `me`, and no handler clears
    it). -/
def evOk (s : Session) : EngineEvent → Prop
  | .qrEv ok => ok = true → s.me = none
  | .authenticated _ => s.me = none
  | .readyEv _ => True
  | .auth_failure => s.me = none
  | .disconnectedEv => True

/-- A whole initialization trace observing `evOk` step by step. -/
inductive TraceOk : Session → List EngineEvent → Prop where
  | nil (s : Session) : TraceOk s []
  | cons {s : Session} {ev : EngineEvent} {tr : List EngineEvent} :
      evOk s ev → TraceOk (s.onEvent ev) tr → TraceOk s (ev :: tr)

/-- A registry with one session for `"a"` in state `ready` (as left by a
    completed pairing whose `getMe()` failed, so `me` is null). -/
def stReady : RegState :=
  { clients := [("a", { handle := 0, status := .ready, info := none, me := none })],
    nextHandle := 1, disk := [], webhooks := [] }

/-- A registry with one session for `"a"` still waiting at the QR screen. -/
def stQr : RegState :=
  { clients := [("a", { handle := 0, status := .qr, info := none, me := none })],
    nextHandle := 1, disk := [], webhooks := [] }

/-- A reachable state violating the selfIdentity invariant: create `"a"`,
    deliver `ready` (with `getMe()` succeeding), then deliver `auth_failure`
    — the handler sets status `auth_failure` but never clears `me`. -/
def c6Bad : RegState :=
  applyStep (applyStep (applyStep (bootState [])
    (.createS "a" [] (.ok ())))
    (.engineCb "a" (.readyEv (some "me-wid"))))
    (.engineCb "a" .auth_failure)

/- ===== association-list lemmas ===== -/

theorem countKey_setEntry (k id : String) (s : Session) (l : List (String × Session)) :
    countKey k (setEntry id s l) =
      if k = id then (if countKey id l = 0 then 1 else countKey id l)
      else countKey k l := by
  induction l with
  | nil =>
    by_cases h : k = id
    · subst h; simp [setEntry, countKey]
    · simp [setEntry, countKey, h, Ne.symm h]
  | cons hd tl ih =>
    obtain ⟨k', v⟩ := hd
    by_cases h1 : k' = id
    · subst h1
      by_cases h2 : k = k'
      · subst h2
        have hne : ¬(1 + countKey k tl = 0) := by omega
        simp [setEntry, countKey, hne]
      · simp [setEntry, countKey, h2, Ne.symm h2]
    · by_cases h2 : k' = k
      · subst h2
        simp [setEntry, countKey, h1, ih, Ne.symm h1]
      · simp [setEntry, countKey, h1, h2, ih]

theorem countKey_eraseEntry (k id : String) (l : List (String × Session)) :
    countKey k (eraseEntry id l) =
      if k = id then countKey id l - 1 else countKey k l := by
  induction l with
  | nil =>
    by_cases h : k = id <;> simp [eraseEntry, countKey, h]
  | cons hd tl ih =>
    obtain ⟨k', v⟩ := hd
    by_cases h1 : k' = id
    · subst h1
      by_cases h2 : k = k'
      · subst h2; simp [eraseEntry, countKey]
      · simp [eraseEntry, countKey, h2, Ne.symm h2]
    · by_cases h2 : k' = k
      · subst h2
        simp [eraseEntry, countKey, h1, ih, Ne.symm h1]
      · simp [eraseEntry, countKey, h1, h2, ih]


theorem getEntry_eq_none_iff (id : String) (l : List (String × Session)) :
    getEntry id l = none ↔ countKey id l = 0 := by
  induction l with
  | nil => simp [getEntry, countKey]
  | cons hd tl ih =>
    obtain ⟨k, v⟩ := hd
    by_cases h : k = id
    · subst h; simp [getEntry, countKey]
    · simp [getEntry, countKey, h, ih]

theorem countKey_pos_of_getEntry (id : String) (s : Session) (l : List (String × Session))
    (h : getEntry id l = some s) : 1 ≤ countKey id l := by
  by_contra hc
  have h0 : countKey id l = 0 := by omega
  rw [(getEntry_eq_none_iff id l).2 h0] at h
  exact Option.noConfusion h

theorem getEntry_setEntry (k id : String) (s : Session) (l : List (String × Session)) :
    getEntry k (setEntry id s l) = if k = id then some s else getEntry k l := by
  induction l with
  | nil =>
    by_cases h : k = id
    · subst h; simp [setEntry, getEntry]
    · simp [setEntry, getEntry, h, Ne.symm h]
  | cons hd tl ih =>
    obtain ⟨k1, v⟩ := hd
    by_cases h1 : k1 = id
    · subst h1
      by_cases h2 : k = k1
      · subst h2; simp [setEntry, getEntry]
      · simp [setEntry, getEntry, h2, Ne.symm h2]
    · by_cases h2 : k1 = k
      · subst h2
        simp [setEntry, getEntry, h1, Ne.symm h1]
      · simp [setEntry, getEntry, h1, h2, ih]

theorem getEntry_eraseEntry_ne (k id : String) (l : List (String × Session)) (h : k ≠ id) :
    getEntry k (eraseEntry id l) = getEntry k l := by
  induction l with
  | nil => simp [eraseEntry]
  | cons hd tl ih =>
    obtain ⟨k1, v⟩ := hd
    by_cases h1 : k1 = id
    · subst h1
      have : ¬ k1 = k := fun e => h e.symm
      simp [eraseEntry, getEntry, this]
    · by_cases h2 : k1 = k
      · subst h2; simp [eraseEntry, getEntry, h1]
      · simp [eraseEntry, getEntry, h1, h2, ih]

theorem nodupKeys_countKey_le_one (id : String) (l : List (String × Session))
    (h : nodupKeys l = true) : countKey id l ≤ 1 := by
  induction l with
  | nil => simp [countKey]
  | cons hd tl ih =>
    obtain ⟨k, v⟩ := hd
    simp [nodupKeys] at h
    by_cases h1 : k = id
    · subst h1
      simp [countKey, h.1]
    · simp [countKey, h1]
      exact ih h.2

theorem nodupKeys_setEntry (id : String) (s : Session) (l : List (String × Session))
    (h : nodupKeys l = true) : nodupKeys (setEntry id s l) = true := by
  induction l with
  | nil => simp [setEntry, nodupKeys, countKey]
  | cons hd tl ih =>
    obtain ⟨k, v⟩ := hd
    simp [nodupKeys] at h
    by_cases h1 : k = id
    · subst h1
      simp [setEntry, nodupKeys, h.1, h.2]
    · simp [setEntry, nodupKeys, h1, countKey_setEntry, Ne.symm h1, h.1, ih h.2]

theorem nodupKeys_eraseEntry (id : String) (l : List (String × Session))
    (h : nodupKeys l = true) : nodupKeys (eraseEntry id l) = true := by
  induction l with
  | nil => simp [eraseEntry, nodupKeys]
  | cons hd tl ih =>
    obtain ⟨k, v⟩ := hd
    simp [nodupKeys] at h
    by_cases h1 : k = id
    · subst h1; simpa [eraseEntry] using h.2
    · simp [eraseEntry, nodupKeys, h1, countKey_eraseEntry, Ne.symm h1, h.1, ih h.2]

theorem getEntry_eraseEntry_self (id : String) (l : List (String × Session))
    (h : nodupKeys l = true) : getEntry id (eraseEntry id l) = none := by
  have hle := nodupKeys_countKey_le_one id l h
  rw [getEntry_eq_none_iff, countKey_eraseEntry]
  simp
  omega

theorem countKey_eq_one (id : String) (s : Session) (l : List (String × Session))
    (hn : nodupKeys l = true) (h : getEntry id l = some s) : countKey id l = 1 := by
  have h1 := countKey_pos_of_getEntry id s l h
  have h2 := nodupKeys_countKey_le_one id l hn
  omega


theorem eraseEntry_of_none (id : String) (l : List (String × Session))
    (h : getEntry id l = none) : eraseEntry id l = l := by
  induction l with
  | nil => rfl
  | cons hd tl ih =>
    obtain ⟨k, v⟩ := hd
    by_cases h1 : k = id
    · subst h1; simp [getEntry] at h
    · simp [getEntry, h1] at h
      simp [eraseEntry, h1, ih h]

/- ===== step and fold lemmas ===== -/

theorem stepObj_fst (id : String) (p : Session × RegState) (ev : EngineEvent) :
    (stepObj id p ev).1 = p.1.onEvent ev := rfl

theorem stepObj_nextHandle (id : String) (p : Session × RegState) (ev : EngineEvent) :
    (stepObj id p ev).2.nextHandle = p.2.nextHandle := by
  simp [stepObj]

theorem foldl_stepObj_nextHandle (id : String) (tr : List EngineEvent) :
    ∀ p : Session × RegState,
      ((tr.foldl (stepObj id) p)).2.nextHandle = p.2.nextHandle := by
  induction tr with
  | nil => intro p; rfl
  | cons ev tl ih =>
    intro p
    rw [List.foldl_cons, ih, stepObj_nextHandle]

theorem stepObj_WF (id : String) (p : Session × RegState) (ev : EngineEvent)
    (h : nodupKeys p.2.clients = true) : nodupKeys (stepObj id p ev).2.clients = true := by
  cases hg : getEntry id p.2.clients with
  | none =>
    cases hd : deregisters ev <;>
      simp [stepObj, hg, hd, h, nodupKeys_eraseEntry _ _ h]
  | some s =>
    cases hd : deregisters ev <;>
      simp [stepObj, hg, hd, nodupKeys_setEntry _ _ _ h,
            nodupKeys_eraseEntry _ _ (nodupKeys_setEntry _ _ _ h)]

theorem foldl_stepObj_WF (id : String) (tr : List EngineEvent) :
    ∀ p : Session × RegState, nodupKeys p.2.clients = true →
      nodupKeys ((tr.foldl (stepObj id) p)).2.clients = true := by
  induction tr with
  | nil => intro p h; exact h
  | cons ev tl ih =>
    intro p h
    rw [List.foldl_cons]
    exact ih _ (stepObj_WF _ _ _ h)

/- ===== createSession shape lemmas ===== -/

theorem createSession_empty (tr : List EngineEvent) (r : Except String Unit) (st : RegState) :
    createSession "" tr r st = (.error .missing_session_id, st) := by
  simp [createSession]

theorem createSession_existing (id : String) (tr : List EngineEvent) (r : Except String Unit)
    (st : RegState) (s : Session) (h0 : id ≠ "") (hg : getEntry id st.clients = some s) :
    createSession id tr r st = (.ok s, st) := by
  simp [createSession, h0, hg]

theorem createSession_snd_fresh (id : String) (tr : List EngineEvent) (r : Except String Unit)
    (st : RegState) (h0 : id ≠ "") (hg : getEntry id st.clients = none) :
    (createSession id tr r st).2 =
      (tr.foldl (stepObj id) (freshSession st.nextHandle,
        { st with clients := setEntry id (freshSession st.nextHandle) st.clients,
                  nextHandle := st.nextHandle + 1 })).2 := by
  simp only [createSession, h0, hg]
  cases r <;> simp

theorem createSession_WF (id : String) (tr : List EngineEvent) (r : Except String Unit)
    (st : RegState) (h : WFm st) : WFm (createSession id tr r st).2 := by
  by_cases h0 : id = ""
  · subst h0; rw [createSession_empty]; exact h
  · cases hg : getEntry id st.clients with
    | some s => rw [createSession_existing id tr r st s h0 hg]; exact h
    | none =>
      rw [createSession_snd_fresh id tr r st h0 hg]
      exact foldl_stepObj_WF _ _ _ (nodupKeys_setEntry _ _ _ h)

theorem applyEventReg_WF (id : String) (ev : EngineEvent) (st : RegState)
    (h : WFm st) : WFm (applyEventReg id ev st) := by
  unfold applyEventReg
  cases hg : getEntry id st.clients with
  | none => exact h
  | some s => exact stepObj_WF _ _ _ h

theorem deleteSession_WF (id : String) (dok : Bool) (st : RegState)
    (h : WFm st) : WFm (deleteSession id dok st).2 := by
  unfold deleteSession WFm
  cases hg : getEntry id st.clients with
  | none => simpa [hg] using h
  | some s => simpa [hg] using nodupKeys_eraseEntry _ _ h

theorem reachable_WFm (st : RegState) (h : Reachable st) : WFm st := by
  induction h with
  | boot d => rfl
  | step stp hr ih =>
    cases stp with
    | createS id tr r => exact createSession_WF _ _ _ _ ih
    | engineCb id ev => exact applyEventReg_WF _ _ _ ih
    | deleteS id dok => exact deleteSession_WF _ _ _ ih


/- ===== selfIdentity invariant lemmas ===== -/

theorem stepObj_selfId (id : String) (p : Session × RegState) (ev : EngineEvent)
    (hW : nodupKeys p.2.clients = true)
    (hI : SelfIdInv p.2)
    (hO : getEntry id p.2.clients = some p.1 ∨ getEntry id p.2.clients = none)
    (hE : evOk p.1 ev) :
    SelfIdInv (stepObj id p ev).2 ∧
    (getEntry id (stepObj id p ev).2.clients = some (p.1.onEvent ev) ∨
     getEntry id (stepObj id p ev).2.clients = none) := by
  rcases hO with hO | hO
  · cases hd : deregisters ev with
    | false =>
      have hc : (stepObj id p ev).2.clients = setEntry id (p.1.onEvent ev) p.2.clients := by
        simp [stepObj, hO, hd]
      constructor
      · intro k sk hks hme
        rw [hc, getEntry_setEntry] at hks
        by_cases hk : k = id
        · rw [if_pos hk] at hks
          injection hks with e
          subst e
          have hobj : p.1.me ≠ none → p.1.status = .ready := fun hm => hI id p.1 hO hm
          cases ev with
          | qrEv ok =>
            simp only [evOk] at hE
            cases ok with
            | true =>
              simp [Session.onEvent, hE rfl] at hme
            | false =>
              simp only [Session.onEvent, Bool.false_eq_true, if_false] at hme ⊢
              exact hobj hme
          | authenticated i =>
            simp only [evOk] at hE
            simp [Session.onEvent, hE] at hme
          | readyEv m => simp [Session.onEvent]
          | auth_failure =>
            simp only [evOk] at hE
            simp [Session.onEvent, hE] at hme
          | disconnectedEv => simp [deregisters] at hd
        · rw [if_neg hk] at hks
          exact hI k sk hks hme
      · left
        rw [hc, getEntry_setEntry, if_pos rfl]
    | true =>
      have hc : (stepObj id p ev).2.clients =
          eraseEntry id (setEntry id (p.1.onEvent ev) p.2.clients) := by
        simp [stepObj, hO, hd]
      have hW1 : nodupKeys (setEntry id (p.1.onEvent ev) p.2.clients) = true :=
        nodupKeys_setEntry _ _ _ hW
      constructor
      · intro k sk hks hme
        rw [hc] at hks
        by_cases hk : k = id
        · subst hk
          rw [getEntry_eraseEntry_self _ _ hW1] at hks
          exact Option.noConfusion hks
        · rw [getEntry_eraseEntry_ne _ _ _ hk, getEntry_setEntry, if_neg hk] at hks
          exact hI k sk hks hme
      · right
        rw [hc]
        exact getEntry_eraseEntry_self _ _ hW1
  · have hc : (stepObj id p ev).2.clients = p.2.clients := by
      cases hd : deregisters ev <;> simp [stepObj, hO, hd, eraseEntry_of_none _ _ hO]
    constructor
    · intro k sk hks hme
      exact hI k sk (hc ▸ hks) hme
    · right
      rw [hc]
      exact hO

theorem foldl_stepObj_selfId (id : String) (tr : List EngineEvent) :
    ∀ p : Session × RegState, nodupKeys p.2.clients = true → SelfIdInv p.2 →
      (getEntry id p.2.clients = some p.1 ∨ getEntry id p.2.clients = none) →
      TraceOk p.1 tr → SelfIdInv ((tr.foldl (stepObj id) p)).2 := by
  induction tr with
  | nil =>
    intro p _ hI _ _
    exact hI
  | cons ev tl ih =>
    intro p hW hI hO hT
    cases hT with
    | cons hE hT2 =>
      rw [List.foldl_cons]
      have hs := stepObj_selfId id p ev hW hI hO hE
      refine ih _ (stepObj_WF _ _ _ hW) hs.1 ?_ ?_
      · rw [stepObj_fst]
        exact hs.2
      · rw [stepObj_fst]
        exact hT2


/- ===== deleteSession helper lemmas ===== -/

theorem deleteSession_true (id : String) (dok : Bool) (st : RegState) :
    (deleteSession id dok st).1 = true := by
  cases hg : getEntry id st.clients <;> simp [deleteSession, hg]

theorem deleteSession_entry_none (id : String) (dok : Bool) (st : RegState)
    (h : WFm st) : getEntry id ((deleteSession id dok st).2).clients = none := by
  cases hg : getEntry id st.clients with
  | none => simp [deleteSession, hg]
  | some s =>
    simpa [deleteSession, hg] using getEntry_eraseEntry_self id st.clients h

theorem deleteSession_disk_absent (id : String) (dok : Bool) (st : RegState) :
    ∀ e ∈ ((deleteSession id dok st).2).disk, e.name ≠ "session-" ++ id := by
  intro e he
  cases hg : getEntry id st.clients <;>
    simp [deleteSession, hg, List.mem_filter] at he <;>
    exact he.2

/- ===== claim theorems ===== -/

/-- C9: the chat-id normalizer turns the bare number `"15551234567"` into
    `"15551234567@c.us"`, leaves the already-canonical group id
    `"group123@g.us"` unchanged, and fails (returns `null`) on the empty
    string. -/
theorem c9_chat_id_normalizer :
    toChatId "15551234567" = some "15551234567@c.us" ∧
    toChatId "group123@g.us" = some "group123@g.us" ∧
    toChatId "" = none :=
  ⟨by decide, by decide, by decide⟩

/-- C4: the inbound media payload carries the inline base64 data exactly when
    the estimated decoded size is at or below `WEBHOOK_MEDIA_MAX`; at exactly
    the threshold it is inlined, one byte over it is marked `skipped` with the
    inline data absent, and only metadata is carried. -/
theorem c4_inline_threshold :
    ∀ (b64 mt ofn sn : String) (maxB : Nat),
      (approxBytes b64.length ≤ maxB →
        (buildInboundMedia b64 mt ofn sn maxB).data = some b64 ∧
        (buildInboundMedia b64 mt ofn sn maxB).skipped = false) ∧
      (maxB < approxBytes b64.length →
        (buildInboundMedia b64 mt ofn sn maxB).data = none ∧
        (buildInboundMedia b64 mt ofn sn maxB).skipped = true) ∧
      (approxBytes b64.length = maxB →
        (buildInboundMedia b64 mt ofn sn maxB).data = some b64) ∧
      (approxBytes b64.length = maxB + 1 →
        (buildInboundMedia b64 mt ofn sn maxB).data = none ∧
        (buildInboundMedia b64 mt ofn sn maxB).skipped = true) := by
  intro b64 mt ofn sn maxB
  unfold buildInboundMedia
  by_cases h : approxBytes b64.length ≤ maxB
  · simp [h]
    omega
  · simp [h]
    omega

/-- C4 witness: with threshold 3, a base64 payload of length 4 (estimated
    decoded size exactly 3) is inlined, and one of length 6 (estimated size
    4 = threshold + 1) is skipped with no inline data. -/
theorem c4_inline_threshold_witness :
    approxBytes ("abcd" : String).length = 3 ∧
    (buildInboundMedia "abcd" "image/png" "" "f.png" 3).data = some "abcd" ∧
    approxBytes ("abcdef" : String).length = 4 ∧
    (buildInboundMedia "abcdef" "image/png" "" "f.png" 3).data = none ∧
    (buildInboundMedia "abcdef" "image/png" "" "f.png" 3).skipped = true :=
  ⟨by decide,
   (c4_inline_threshold "abcd" "image/png" "" "f.png" 3).2.2.1 (by decide),
   by decide,
   ((c4_inline_threshold "abcdef" "image/png" "" "f.png" 3).2.2.2 (by decide)).1,
   ((c4_inline_threshold "abcdef" "image/png" "" "f.png" 3).2.2.2 (by decide)).2⟩

/-- C10: `deleteSession(id)` on an id with no registered session still returns
    `true` and still fires the `session_deleted` webhook — the publication is
    unconditional. -/
theorem c10_delete_webhook_unconditional :
    ∀ (id : String) (dok : Bool) (st : RegState), getEntry id st.clients = none →
      (deleteSession id dok st).1 = true ∧
      (deleteSession id dok st).2.webhooks = st.webhooks ++ [("session_deleted", id)] := by
  intro id dok st h
  simp [deleteSession, h]

/-- C10 witness: deleting the never-created id `"ghost"` on a fresh registry
    succeeds and logs exactly the `session_deleted` webhook. -/
theorem c10_delete_webhook_unconditional_witness :
    (deleteSession "ghost" true (bootState [])).1 = true ∧
    (deleteSession "ghost" true (bootState [])).2.webhooks =
      [("session_deleted", "ghost")] := by
  have h := c10_delete_webhook_unconditional "ghost" true (bootState []) (by decide)
  simpa using h

/-- C7: `deleteSession(id)` always succeeds (also on a nonexistent id), is
    insensitive to the outcome of the best-effort engine teardown, removes
    the in-memory entry (in a well-formed registry), leaves no `session-<id>`
    credential directory on disk, and calling it twice yields the same
    success and the same absences. -/
theorem c7_delete_idempotent :
    ∀ (id : String) (dok1 dok2 : Bool) (st : RegState),
      (deleteSession id dok1 st).1 = true ∧
      deleteSession id dok1 st = deleteSession id dok2 st ∧
      (WFm st → getEntry id ((deleteSession id dok1 st).2).clients = none) ∧
      (∀ e ∈ ((deleteSession id dok1 st).2).disk, e.name ≠ "session-" ++ id) ∧
      (deleteSession id dok1 ((deleteSession id dok1 st).2)).1 = true ∧
      (WFm st →
        getEntry id ((deleteSession id dok1 ((deleteSession id dok1 st).2)).2).clients
          = none) ∧
      (∀ e ∈ ((deleteSession id dok1 ((deleteSession id dok1 st).2)).2).disk,
        e.name ≠ "session-" ++ id) := by
  intro id dok1 dok2 st
  refine ⟨deleteSession_true _ _ _, rfl, fun h => deleteSession_entry_none _ _ _ h,
    deleteSession_disk_absent _ _ _, deleteSession_true _ _ _,
    fun h => deleteSession_entry_none _ _ _ (deleteSession_WF _ _ _ h),
    deleteSession_disk_absent _ _ _⟩

/-- C7 witness: deleting `"a"` twice on a registry holding a live session for
    `"a"` and its credential directory succeeds both times, removes the entry
    and leaves the directory absent. -/
theorem c7_delete_idempotent_witness :
    (deleteSession "a" true
      { clients := [("a", { handle := 0, status := .ready, info := none, me := none })],
        nextHandle := 1, disk := [{ name := "session-a", isDir := true }],
        webhooks := [] }).1 = true ∧
    getEntry "a" ((deleteSession "a" true
      { clients := [("a", { handle := 0, status := .ready, info := none, me := none })],
        nextHandle := 1, disk := [{ name := "session-a", isDir := true }],
        webhooks := [] }).2).clients = none := by
  have h := c7_delete_idempotent "a" true false
    { clients := [("a", { handle := 0, status := .ready, info := none, me := none })],
      nextHandle := 1, disk := [{ name := "session-a", isDir := true }],
      webhooks := [] }
  exact ⟨h.1, h.2.2.1 (by decide)⟩

/-- C8: restoring from three persisted credential directories, of which the
    one for `"bad"` is malformed (its engine fails to initialize), returns
    exactly the two valid tenant ids in order and still registers their
    sessions — the per-id failure does not abort the loop. -/
theorem c8_restore_tolerates_failure :
    (restoreAllSessions
      (fun id => if id = "bad" then ([], .error "Failed to launch the browser process")
                 else ([], .ok ()))
      (bootState [{ name := "session-tenant1", isDir := true },
                  { name := "session-bad", isDir := true },
                  { name := "session-tenant3", isDir := true }])).1
      = ["tenant1", "tenant3"] ∧
    getEntry "tenant1"
      ((restoreAllSessions
        (fun id => if id = "bad" then ([], .error "Failed to launch the browser process")
                   else ([], .ok ()))
        (bootState [{ name := "session-tenant1", isDir := true },
                    { name := "session-bad", isDir := true },
                    { name := "session-tenant3", isDir := true }])).2).clients
      = some (freshSession 0) ∧
    getEntry "tenant3"
      ((restoreAllSessions
        (fun id => if id = "bad" then ([], .error "Failed to launch the browser process")
                   else ([], .ok ()))
        (bootState [{ name := "session-tenant1", isDir := true },
                    { name := "session-bad", isDir := true },
                    { name := "session-tenant3", isDir := true }])).2).clients
      = some (freshSession 2) :=
  ⟨by decide, by decide, by decide⟩


/-- C5 counterexample: `createSession` awaits `client.initialize()`, during
    which the engine may already deliver callbacks (here a rendered QR
    challenge), so on a fresh id the call does not return a session in state
    `initializing`: it returns the registered session in state `qr`. -/
theorem c5_counterexample_returns_qr :
    (createSession "a" [EngineEvent.qrEv true] (.ok ()) (bootState [])).1 =
      .ok { handle := 0, status := .qr, info := none, me := none } ∧
    Status.qr ≠ Status.initializing :=
  ⟨by decide, by decide⟩

/-- C5 (amended): on a fresh non-empty id, `createSession` allocates and
    registers a new session whose status is `initializing` and then awaits
    engine initialization; it returns that registered session, whose status is
    still `initializing` exactly when no engine callback fired during the
    awaited `initialize()`, and exactly one engine handle is allocated in all
    cases. -/
theorem c5_create_registers_initializing :
    ∀ (id : String) (st : RegState), id ≠ "" → getEntry id st.clients = none →
      (createSession id [] (.ok ()) st).1 = .ok (freshSession st.nextHandle) ∧
      getEntry id ((createSession id [] (.ok ()) st).2).clients =
        some (freshSession st.nextHandle) ∧
      (freshSession st.nextHandle).status = .initializing ∧
      (∀ tr r, ((createSession id tr r st).2).nextHandle = st.nextHandle + 1) := by
  intro id st h0 hg
  refine ⟨?_, ?_, rfl, ?_⟩
  · simp [createSession, h0, hg]
  · rw [createSession_snd_fresh id [] (.ok ()) st h0 hg]
    simp [getEntry_setEntry]
  · intro tr r
    rw [createSession_snd_fresh id tr r st h0 hg, foldl_stepObj_nextHandle]

/-- C5 witness: creating `"a"` on an empty registry with no callbacks during
    initialization returns the registered `initializing` session. -/
theorem c5_create_registers_initializing_witness :
    (createSession "a" [] (.ok ()) (bootState [])).1 = .ok (freshSession 0) ∧
    getEntry "a" ((createSession "a" [] (.ok ()) (bootState [])).2).clients =
      some (freshSession 0) ∧
    (freshSession 0).status = .initializing := by
  have h := c5_create_registers_initializing "a" (bootState []) (by decide) (by decide)
  exact ⟨h.1, h.2.1, h.2.2.1⟩

/-- C1: `createSession` rejects an empty id with `missing_session_id` (the
    spec-level `InvalidArgument`); on an id with a registered live session it
    returns that session with the state unchanged; and on a fresh id, a
    second call after the first returns the very session the first call
    registered, leaving exactly one registered session and exactly one
    allocated engine handle for that id. -/
theorem c1_create_idempotent :
    ∀ (id : String) (tr1 tr2 : List EngineEvent) (r1 r2 : Except String Unit) (st : RegState),
      (createSession "" tr1 r1 st = (.error .missing_session_id, st) ∧
        errClass .missing_session_id = .invalidArgument) ∧
      (∀ s, id ≠ "" → getEntry id st.clients = some s →
        createSession id tr1 r1 st = (.ok s, st)) ∧
      (id ≠ "" → WFm st → getEntry id st.clients = none →
        ∀ s1, getEntry id ((createSession id tr1 r1 st).2).clients = some s1 →
          createSession id tr2 r2 ((createSession id tr1 r1 st).2) =
            (.ok s1, (createSession id tr1 r1 st).2) ∧
          countKey id ((createSession id tr1 r1 st).2).clients = 1 ∧
          ((createSession id tr1 r1 st).2).nextHandle = st.nextHandle + 1) := by
  intro id tr1 tr2 r1 r2 st
  refine ⟨⟨createSession_empty _ _ _, rfl⟩, ?_, ?_⟩
  · intro s h0 hg
    exact createSession_existing _ _ _ _ _ h0 hg
  · intro h0 hWF hg s1 hs1
    refine ⟨createSession_existing _ _ _ _ _ h0 hs1, ?_, ?_⟩
    · exact countKey_eq_one _ _ _ (createSession_WF _ _ _ _ hWF) hs1
    · rw [createSession_snd_fresh _ _ _ _ h0 hg, foldl_stepObj_nextHandle]

/-- C1 witness: on an empty registry, creating `"a"` and then creating `"a"`
    again returns the session of the first call with the state unchanged, one
    registered entry and one allocated handle; the empty id is rejected. -/
theorem c1_create_idempotent_witness :
    createSession "" [] (.ok ()) (bootState []) =
      (.error .missing_session_id, bootState []) ∧
    createSession "a" [] (.ok ()) ((createSession "a" [] (.ok ()) (bootState [])).2) =
      (.ok (freshSession 0), (createSession "a" [] (.ok ()) (bootState [])).2) ∧
    countKey "a" ((createSession "a" [] (.ok ()) (bootState [])).2).clients = 1 ∧
    ((createSession "a" [] (.ok ()) (bootState [])).2).nextHandle = 1 := by
  have h := c1_create_idempotent "a" [] [] (.ok ()) (.ok ()) (bootState [])
  have h2 := h.2.2 (by decide) (by decide) (by decide) (freshSession 0) (by decide)
  exact ⟨h.1.1, h2.1, h2.2.1, h2.2.2⟩


/-- C3: in `sendMedia`, when the first engine send fails with an error in the
    recognized engine-evaluation-fault class, exactly one retry is performed
    whose options force `sendMediaAsDocument = true` and
    `sendAudioAsVoice = false`, and the result of the second attempt is returned;
    a failure outside that class propagates unchanged with no retry. -/
theorem c3_media_fallback :
    ∀ (st : RegState) (id toRaw : String) (buf : Option (List Nat)) (mt fn : String)
      (opts : MediaOpts) (eng : SendOpts → Except String SentMsg) (s : Session)
      (c : String) (e : String),
      getEntry id st.clients = some s → s.status = .ready → toChatId toRaw = some c →
      buf ≠ none → mt ≠ "" →
      eng { caption := opts.caption, sendAudioAsVoice := opts.asVoice && isOggOpus mt,
            sendMediaAsDocument := false } = .error e →
      (shouldFallback e = true →
        (sendMedia id toRaw buf mt fn opts eng st).1.2 =
          [{ caption := opts.caption, sendAudioAsVoice := opts.asVoice && isOggOpus mt,
             sendMediaAsDocument := false },
           { caption := opts.caption, sendAudioAsVoice := false,
             sendMediaAsDocument := true }] ∧
        (sendMedia id toRaw buf mt fn opts eng st).1.1 =
          (match eng { caption := opts.caption, sendAudioAsVoice := false,
                       sendMediaAsDocument := true } with
           | .ok m => .ok m
           | .error e2 => .error (.engineErr e2))) ∧
      (shouldFallback e = false →
        (sendMedia id toRaw buf mt fn opts eng st).1.2 =
          [{ caption := opts.caption, sendAudioAsVoice := opts.asVoice && isOggOpus mt,
             sendMediaAsDocument := false }] ∧
        (sendMedia id toRaw buf mt fn opts eng st).1.1 = .error (.engineErr e)) := by
  intro st id toRaw buf mt fn opts eng s c e hg hs hc hb hm he
  cases buf with
  | none => exact absurd rfl hb
  | some b =>
    constructor
    · intro hf
      unfold sendMedia
      simp [hg, hs, hc, hm, he, hf]
      cases heng : eng { caption := opts.caption, sendAudioAsVoice := false,
                         sendMediaAsDocument := true } <;> simp [heng]
    · intro hf
      unfold sendMedia
      simp [hg, hs, hc, hm, he, hf]


/-- C3 witness: against a ready session, an engine whose plain send fails with
    `"Evaluation failed: b"` is retried once as a document with the voice flag
    off and the second result is returned; an engine failing with
    `"socket closed"` propagates unchanged after a single attempt. -/
theorem c3_media_fallback_witness :
    (sendMedia "a" "77" (some [1]) "image/png" "f.png" { asVoice := false, caption := "" }
      (fun o => if o.sendMediaAsDocument then
                  .ok { serializedId := some "m1", timestamp := some 5 }
                else .error "Evaluation failed: b") stReady).1.2 =
      [{ caption := "", sendAudioAsVoice := false, sendMediaAsDocument := false },
       { caption := "", sendAudioAsVoice := false, sendMediaAsDocument := true }] ∧
    (sendMedia "a" "77" (some [1]) "image/png" "f.png" { asVoice := false, caption := "" }
      (fun o => if o.sendMediaAsDocument then
                  .ok { serializedId := some "m1", timestamp := some 5 }
                else .error "Evaluation failed: b") stReady).1.1 =
      .ok { serializedId := some "m1", timestamp := some 5 } ∧
    (sendMedia "a" "77" (some [1]) "image/png" "f.png" { asVoice := false, caption := "" }
      (fun _ => .error "socket closed") stReady).1.2 =
      [{ caption := "", sendAudioAsVoice := false, sendMediaAsDocument := false }] ∧
    (sendMedia "a" "77" (some [1]) "image/png" "f.png" { asVoice := false, caption := "" }
      (fun _ => .error "socket closed") stReady).1.1 =
      .error (.engineErr "socket closed") := by
  have hA := (c3_media_fallback stReady "a" "77" (some [1]) "image/png" "f.png"
    { asVoice := false, caption := "" }
    (fun o => if o.sendMediaAsDocument then
                .ok { serializedId := some "m1", timestamp := some 5 }
              else .error "Evaluation failed: b")
    { handle := 0, status := .ready, info := none, me := none }
    "77@c.us" "Evaluation failed: b"
    (by decide) (by decide) (by decide) (by decide) (by decide) (by decide)).1 (by decide)
  have hB := (c3_media_fallback stReady "a" "77" (some [1]) "image/png" "f.png"
    { asVoice := false, caption := "" }
    (fun _ => .error "socket closed")
    { handle := 0, status := .ready, info := none, me := none }
    "77@c.us" "socket closed"
    (by decide) (by decide) (by decide) (by decide) (by decide) (by decide)).2 (by decide)
  refine ⟨?_, ?_, hB.1, hB.2⟩
  · simpa using hA.1
  · simpa using hA.2


/- ===== guard-behaviour helper lemmas ===== -/

theorem sendText_proceed (id toRaw text : String) (eng : Except String SentMsg)
    (st : RegState) (s : Session) (c : String)
    (hg : getEntry id st.clients = some s) (hs : s.status = .ready)
    (hc : toChatId toRaw = some c) :
    (sendText id toRaw text eng st).1 =
      (match eng with
       | .ok m => .ok m
       | .error m => .error (.engineErr m)) := by
  unfold sendText
  simp [hg, hs, hc]
  cases eng <;> simp

theorem sendMedia_err_class (id toRaw : String) (buf : Option (List Nat)) (mt fn : String)
    (opts : MediaOpts) (eng : SendOpts → Except String SentMsg) (st : RegState)
    (s : Session) (c : String)
    (hg : getEntry id st.clients = some s) (hs : s.status = .ready)
    (hc : toChatId toRaw = some c) :
    ∀ er, (sendMedia id toRaw buf mt fn opts eng st).1.1 = .error er →
      errClass er = .invalidMedia ∨ errClass er = .engineFailure := by
  intro er hres
  unfold sendMedia at hres
  simp [hg, hs, hc] at hres
  cases hbuf : buf with
  | none =>
    rw [hbuf] at hres
    simp at hres
    subst hres
    left
    rfl
  | some b =>
    rw [hbuf] at hres
    by_cases hmt : mt = ""
    · simp [hmt] at hres
      subst hres
      left
      rfl
    · simp [hmt] at hres
      cases heng : eng { caption := opts.caption, sendAudioAsVoice := opts.asVoice && isOggOpus mt, sendMediaAsDocument := false } with
      | ok m =>
        rw [heng] at hres
        simp at hres
      | error emsg =>
        rw [heng] at hres
        by_cases hf : shouldFallback emsg
        · simp [hf] at hres
          cases heng2 : eng { caption := opts.caption, sendAudioAsVoice := false, sendMediaAsDocument := true } with
          | ok m2 =>
            rw [heng2] at hres
            simp at hres
          | error e2 =>
            rw [heng2] at hres
            simp at hres
            subst hres
            right
            rfl
        · simp [hf] at hres
          subst hres
          right
          rfl

theorem revokeMessage_err_class (id chatIdRaw msgId : String) (hasG : Bool)
    (fetched : Except String (Option Unit)) (delRes : Except String Unit) (st : RegState)
    (s : Session) (c : String)
    (hg : getEntry id st.clients = some s) (hs : s.status = .ready)
    (hc : toChatId chatIdRaw = some c) :
    ∀ er, (revokeMessage id chatIdRaw msgId hasG fetched delRes st).1 = .error er →
      errClass er = .invalidArgument ∨ errClass er = .messageNotFound ∨
      errClass er = .revokeUnsupported ∨ errClass er = .engineFailure := by
  intro er hres
  unfold revokeMessage at hres
  simp [hg, hs, hc] at hres
  by_cases hmid : msgId = ""
  · simp [hmid] at hres
    subst hres
    left
    rfl
  · simp [hmid] at hres
    cases hasG with
    | false =>
      simp at hres
      subst hres
      right; right; left
      rfl
    | true =>
      simp at hres
      cases fetched with
      | error m =>
        simp at hres
        subst hres
        right; right; right
        rfl
      | ok o =>
        cases o with
        | none =>
          simp at hres
          subst hres
          right; left
          rfl
        | some u =>
          cases delRes with
          | error m =>
            simp at hres
            subst hres
            right; right; right
            rfl
          | ok u2 => simp at hres


/-- C2: for every registry state, `sendText`, `sendMedia` and `revokeMessage`
    fail with `session_not_found` (the spec-level `SessionNotFound`) when no
    session is registered for the id, with `session_not_ready` whenever the
    registered session status is not `ready`, and with the normalization
    failure (`invalid_recipient` for the sends, `invalid_chat_id` for revoke —
    both `InvalidRecipient` in the spec-level taxonomy) when the recipient/chat-id
    cannot be normalized; past these guards, `sendText` returns the engine
    result and the only failures the other two can report lie outside those
    three classes. -/
theorem c2_guard_errors :
    ∀ (st : RegState) (id toRaw text chatIdRaw msgId : String) (buf : Option (List Nat))
      (mt fn : String) (opts : MediaOpts) (engT : Except String SentMsg)
      (engM : SendOpts → Except String SentMsg) (hasG : Bool)
      (fetched : Except String (Option Unit)) (delRes : Except String Unit),
      (getEntry id st.clients = none →
        (sendText id toRaw text engT st).1 = .error .session_not_found ∧
        (sendMedia id toRaw buf mt fn opts engM st).1.1 = .error .session_not_found ∧
        (revokeMessage id chatIdRaw msgId hasG fetched delRes st).1 =
          .error .session_not_found ∧
        errClass .session_not_found = .sessionNotFound) ∧
      (∀ s, getEntry id st.clients = some s → s.status ≠ .ready →
        (sendText id toRaw text engT st).1 = .error .session_not_ready ∧
        (sendMedia id toRaw buf mt fn opts engM st).1.1 = .error .session_not_ready ∧
        (revokeMessage id chatIdRaw msgId hasG fetched delRes st).1 =
          .error .session_not_ready ∧
        errClass .session_not_ready = .sessionNotReady) ∧
      (∀ s, getEntry id st.clients = some s → s.status = .ready →
        (toChatId toRaw = none →
          (sendText id toRaw text engT st).1 = .error .invalid_recipient ∧
          (sendMedia id toRaw buf mt fn opts engM st).1.1 = .error .invalid_recipient) ∧
        (toChatId chatIdRaw = none →
          (revokeMessage id chatIdRaw msgId hasG fetched delRes st).1 =
            .error .invalid_chat_id) ∧
        errClass .invalid_recipient = .invalidRecipient ∧
        errClass .invalid_chat_id = .invalidRecipient) ∧
      (∀ s c, getEntry id st.clients = some s → s.status = .ready →
        (toChatId toRaw = some c →
          (sendText id toRaw text engT st).1 =
            (match engT with
             | .ok m => .ok m
             | .error m => .error (.engineErr m)) ∧
          (∀ er, (sendMedia id toRaw buf mt fn opts engM st).1.1 = .error er →
            errClass er = .invalidMedia ∨ errClass er = .engineFailure)) ∧
        (toChatId chatIdRaw = some c →
          ∀ er, (revokeMessage id chatIdRaw msgId hasG fetched delRes st).1 = .error er →
            errClass er = .invalidArgument ∨ errClass er = .messageNotFound ∨
            errClass er = .revokeUnsupported ∨ errClass er = .engineFailure)) := by
  intro st id toRaw text chatIdRaw msgId buf mt fn opts engT engM hasG fetched delRes
  refine ⟨?_, ?_, ?_, ?_⟩
  · intro h
    exact ⟨by simp [sendText, h], by simp [sendMedia, h], by simp [revokeMessage, h], rfl⟩
  · intro s hg hs
    exact ⟨by simp [sendText, hg, hs], by simp [sendMedia, hg, hs],
      by simp [revokeMessage, hg, hs], rfl⟩
  · intro s hg hs
    refine ⟨fun hcn => ⟨by simp [sendText, hg, hs, hcn], by simp [sendMedia, hg, hs, hcn]⟩,
      fun hcn => by simp [revokeMessage, hg, hs, hcn], rfl, rfl⟩
  · intro s c hg hs
    refine ⟨fun hc => ⟨sendText_proceed id toRaw text engT st s c hg hs hc,
      sendMedia_err_class id toRaw buf mt fn opts engM st s c hg hs hc⟩,
      fun hc => revokeMessage_err_class id chatIdRaw msgId hasG fetched delRes st s c
        hg hs hc⟩

/-- C2 witness: concrete instances of each guard — unknown id, non-ready
    session, failed normalization for send and revoke, and a ready session
    whose `sendText` returns the engine message. -/
theorem c2_guard_errors_witness :
    (sendText "ghost" "77" "hi" (.ok { serializedId := none, timestamp := none })
      (bootState [])).1 = .error .session_not_found ∧
    (sendText "a" "77" "hi" (.ok { serializedId := none, timestamp := none }) stQr).1 =
      .error .session_not_ready ∧
    (sendMedia "a" "77" (some [1]) "image/png" "f" { asVoice := false, caption := "" }
      (fun _ => .ok { serializedId := none, timestamp := none }) stQr).1.1 =
      .error .session_not_ready ∧
    (sendText "a" "" "hi" (.ok { serializedId := none, timestamp := none }) stReady).1 =
      .error .invalid_recipient ∧
    (revokeMessage "a" "" "m1" true (.ok (some ())) (.ok ()) stReady).1 =
      .error .invalid_chat_id ∧
    (sendText "a" "77" "hi" (.ok { serializedId := some "m", timestamp := none })
      stReady).1 = .ok { serializedId := some "m", timestamp := none } := by
  have h1 := (c2_guard_errors (bootState []) "ghost" "77" "hi" "c" "m1" (some [1])
    "image/png" "f" { asVoice := false, caption := "" }
    (.ok { serializedId := none, timestamp := none })
    (fun _ => .ok { serializedId := none, timestamp := none }) true (.ok (some ()))
    (.ok ())).1 (by decide)
  have h2 := (c2_guard_errors stQr "a" "77" "hi" "c" "m1" (some [1]) "image/png" "f"
    { asVoice := false, caption := "" } (.ok { serializedId := none, timestamp := none })
    (fun _ => .ok { serializedId := none, timestamp := none }) true (.ok (some ()))
    (.ok ())).2.1 { handle := 0, status := .qr, info := none, me := none }
    (by decide) (by decide)
  have h3 := (c2_guard_errors stReady "a" "" "hi" "" "m1" (some [1]) "image/png" "f"
    { asVoice := false, caption := "" } (.ok { serializedId := none, timestamp := none })
    (fun _ => .ok { serializedId := none, timestamp := none }) true (.ok (some ()))
    (.ok ())).2.2.1 { handle := 0, status := .ready, info := none, me := none }
    (by decide) (by decide)
  have h4 := (c2_guard_errors stReady "a" "77" "hi" "c" "m1" (some [1]) "image/png" "f"
    { asVoice := false, caption := "" } (.ok { serializedId := some "m", timestamp := none })
    (fun _ => .ok { serializedId := none, timestamp := none }) true (.ok (some ()))
    (.ok ())).2.2.2 { handle := 0, status := .ready, info := none, me := none } "77@c.us"
    (by decide) (by decide)
  refine ⟨h1.1, h2.1, h2.2.1, (h3.1 (by decide)).1, h3.2.1 (by decide), ?_⟩
  have h5 := (h4.1 (by decide)).1
  simpa using h5


/-- C6 counterexample: the state reached by creating `"a"`, then delivering
    `ready` (with `getMe()` returning an identity) and then `auth_failure` is
    reachable, and in it the registered session for `"a"` has a non-null
    `me` while its status is `auth_failure`, not `ready` — the `auth_failure`
    handler sets only `status` and never clears `me`. -/
theorem c6_counterexample_selfid_violated :
    Reachable c6Bad ∧ ¬ SelfIdInv c6Bad := by
  constructor
  · exact Reachable.step (.engineCb "a" .auth_failure)
      (Reachable.step (.engineCb "a" (.readyEv (some "me-wid")))
        (Reachable.step (.createS "a" [] (.ok ())) (Reachable.boot [])))
  · intro h
    have hg : getEntry "a" c6Bad.clients =
        some { handle := 0, status := .auth_failure, info := none, me := some "me-wid" } := by
      decide
    have hr := h "a" _ hg (by decide)
    exact absurd hr (by decide)

/-- C6 (amended): the invariant "a registered session has non-null
    selfIdentity only in status `ready`" holds at boot and is preserved by
    `deleteSession` and by every engine callback except a rendered `qr`, an
    `authenticated` or an `auth_failure` delivered to a session whose `me` is
    already non-null (i.e. after a successful `ready`): those transitions —
    and only those — can leave a registered non-ready session with a non-null
    selfIdentity, because their handlers never clear `me`.  `createSession`
    preserves it whenever its initialization trace observes the same
    discipline. -/
theorem c6_selfid_invariant_guarded :
    (∀ disk, SelfIdInv (bootState disk)) ∧
    (∀ st, WFm st → SelfIdInv st →
      (∀ id tr r, TraceOk (freshSession st.nextHandle) tr →
        SelfIdInv ((createSession id tr r st).2)) ∧
      (∀ id ev, (∀ s, getEntry id st.clients = some s → evOk s ev) →
        SelfIdInv (applyEventReg id ev st)) ∧
      (∀ id dok, SelfIdInv ((deleteSession id dok st).2))) := by
  constructor
  · intro d k sk hk
    simp [bootState, getEntry] at hk
  · intro st hW hI
    refine ⟨?_, ?_, ?_⟩
    · intro id tr r hT
      by_cases h0 : id = ""
      · subst h0
        rw [createSession_empty]
        exact hI
      · cases hg : getEntry id st.clients with
        | some s =>
          rw [createSession_existing id tr r st s h0 hg]
          exact hI
        | none =>
          rw [createSession_snd_fresh id tr r st h0 hg]
          refine foldl_stepObj_selfId id tr _ (nodupKeys_setEntry _ _ _ hW) ?_ ?_ hT
          · intro k sk hk hme
            rw [getEntry_setEntry] at hk
            by_cases hkid : k = id
            · rw [if_pos hkid] at hk
              injection hk with e
              subst e
              exact absurd rfl hme
            · rw [if_neg hkid] at hk
              exact hI k sk hk hme
          · left
            rw [getEntry_setEntry, if_pos rfl]
    · intro id ev hSafe
      unfold applyEventReg
      cases hg : getEntry id st.clients with
      | none => exact hI
      | some s => exact (stepObj_selfId id (s, st) ev hW hI (Or.inl hg) (hSafe s hg)).1
    · intro id dok
      cases hg : getEntry id st.clients with
      | none =>
        intro k sk hk hme
        refine hI k sk ?_ hme
        simpa [deleteSession, hg] using hk
      | some s =>
        intro k sk hk hme
        simp [deleteSession, hg] at hk
        by_cases hkid : k = id
        · subst hkid
          rw [getEntry_eraseEntry_self _ _ hW] at hk
          exact Option.noConfusion hk
        · rw [getEntry_eraseEntry_ne _ _ _ hkid] at hk
          exact hI k sk hk hme

/-- C6 witness: starting from the empty registry, creating `"a"` with an
    initialization trace that renders a QR and then completes `ready`
    (a trace observing the guarded discipline) yields a state satisfying the
    selfIdentity invariant. -/
theorem c6_selfid_invariant_guarded_witness :
    SelfIdInv ((createSession "a" [EngineEvent.qrEv true, EngineEvent.readyEv (some "w")]
      (.ok ()) (bootState [])).2) := by
  have h := c6_selfid_invariant_guarded
  have hb : SelfIdInv (bootState []) := h.1 []
  refine (h.2 (bootState []) (by decide) hb).1 "a"
    [EngineEvent.qrEv true, EngineEvent.readyEv (some "w")] (.ok ()) ?_
  refine TraceOk.cons ?_ (TraceOk.cons ?_ (TraceOk.nil _))
  · simp [evOk, freshSession]
  · simp [evOk]

end WaCrm
